import Mathlib

/-!
# Shallow embedding of the JVMTI event-export core (jvmtiExport.cpp)

This file embeds, in Lean, the data model and the operations of the event
dispatch engine found in `src/hotspot/share/prims/jvmtiExport.cpp`:
phase gating, environment iteration for event posting, the class-file-load-hook
poster, location-based de-duplication for single-step/breakpoint events,
exception-throw de-duplication, deferred posting of class-unload and
dynamic-code-generated events, `GetEnv`-time environment creation, the
event-mark exception-state save/restore protocol, and the nested
object-allocation event collectors.  Theorems about the frozen specification
claims follow the definitions.
-/

namespace JvmtiModel

/-- JVMTI lifecycle phases.  The constructors carry the numeric encoding of
`jvmtiPhase` from the JVMTI interface (`JVMTI_PHASE_ONLOAD = 1`,
`JVMTI_PHASE_PRIMORDIAL = 2`, `JVMTI_PHASE_START = 6`, `JVMTI_PHASE_LIVE = 4`,
`JVMTI_PHASE_DEAD = 8`); the source compares phases by these numeric values
(e.g. `JvmtiEnv::get_phase() < JVMTI_PHASE_PRIMORDIAL`). -/
inductive JvmtiPhase
  | onload
  | primordial
  | start
  | live
  | dead
deriving DecidableEq, Repr

/-- Numeric value of each phase constant, from the JVMTI interface header. -/
def JvmtiPhase.num : JvmtiPhase → Nat
  | .onload => 1
  | .primordial => 2
  | .start => 6
  | .live => 4
  | .dead => 8

/-- The event kinds that appear in the embedded fragment of the catalog. -/
inductive EventKind
  | classFileLoadHook
  | classLoad
  | classUnload
  | singleStep
  | breakpoint
  | exceptionThrow
  | vmObjectAlloc
  | sampledObjectAlloc
  | dynamicCodeGenerated
deriving DecidableEq, Repr

/-- A registered JVMTI environment (`JvmtiEnv`), as observed by the posting
code: its identity, its own phase, the retransform-capable and early
class-hook flags, its per-event enablement bits (`env->is_enabled(kind)` /
`ets->is_enabled(kind)` for the posting thread), and whether its callback
table holds a non-null entry for an event kind. -/
structure JvmtiEnv where
  eid : Nat
  phase : JvmtiPhase
  is_retransformable : Bool
  early_class_hook_env : Bool
  enabled : EventKind → Bool
  has_callback : EventKind → Bool

/-- `JvmtiClassLoadKind`: whether a class-file-load-hook posting comes from a
class load, a redefine, or a retransform. -/
inductive ClassLoadKind
  | load
  | redefine
  | retransform
deriving DecidableEq, Repr

/-!
## Environment iteration

Modelled from the spec: `JvmtiEnvIterator` (declared in `jvmtiEnvBase.hpp`,
which is not under `src/`) iterates the append-only, insertion-ordered
environment list; per the spec, "environments form an append-only,
insertion-ordered list" and iteration "captures a snapshot of registration
order".  We therefore model the registry as a `List JvmtiEnv` in registration
order and iteration as left-to-right list traversal.
-/

/-- Whether `JvmtiClassFileLoadHookPoster::post_to_env` reaches the callback
invocation for `env`: it returns early when the environment is still in the
primordial phase and is not an early class-hook environment
(jvmtiExport.cpp:967-969), and the callback is invoked only when the
`ClassFileLoadHook` entry of the callback table is non-null
(jvmtiExport.cpp:977). -/
def post_to_env_invokes (env : JvmtiEnv) : Bool :=
  !(env.phase == .primordial && !env.early_class_hook_env) &&
    env.has_callback .classFileLoadHook

/-- The environments visited by
`JvmtiClassFileLoadHookPoster::post_all_envs` (jvmtiExport.cpp:942-964), in
visit order: unless the load kind is a retransform, a first pass visits the
non-retransformable environments with the event enabled, then a second pass
visits the retransformable environments with the event enabled. -/
def post_all_envs_visited (envs : List JvmtiEnv) (load_kind : ClassLoadKind) :
    List JvmtiEnv :=
  (if load_kind ≠ .retransform then
    envs.filter (fun e => !e.is_retransformable && e.enabled .classFileLoadHook)
  else []) ++
  envs.filter (fun e => e.is_retransformable && e.enabled .classFileLoadHook)

/-- The environments whose `ClassFileLoadHook` callback is actually invoked by
`post_all_envs`, in invocation order. -/
def post_all_envs_invoked (envs : List JvmtiEnv) (load_kind : ClassLoadKind) :
    List JvmtiEnv :=
  (post_all_envs_visited envs load_kind).filter post_to_env_invokes

/-- The environments whose `VMObjectAlloc` callback is invoked by
`JvmtiExport::post_vm_object_alloc` (jvmtiExport.cpp:2875-2903), in invocation
order: a single pass over the environment list, filtered by the enablement bit
and a non-null callback entry. -/
def post_vm_object_alloc_invoked (envs : List JvmtiEnv) : List JvmtiEnv :=
  envs.filter (fun e => e.enabled .vmObjectAlloc && e.has_callback .vmObjectAlloc)

/-!
## Phase-gated entry points
-/

/-- The environments whose `ClassLoad` callback is invoked by
`JvmtiExport::post_class_load` (jvmtiExport.cpp:1339-1377).  The entry point
returns before any callback when the process-wide phase is numerically below
`JVMTI_PHASE_PRIMORDIAL` (line 1340), when the thread has no JVMTI thread
state (line 1346), or when the thread hides JVMTI events (line 1349); in the
iteration, an environment still in the primordial phase is skipped
(line 1363), and the callback is invoked only when non-null (line 1372). -/
def post_class_load_invoked (p : JvmtiPhase) (has_state hide_events : Bool)
    (envs : List JvmtiEnv) : List JvmtiEnv :=
  if p.num < JvmtiPhase.primordial.num then []
  else if !has_state then []
  else if hide_events then []
  else envs.filter (fun e =>
    e.enabled .classLoad && !(e.phase == .primordial) && e.has_callback .classLoad)

/-!
## Exception state, the event mark, and exception-throw posting
-/

/-- `JvmtiThreadState::ExceptionState`: the transient per-thread
exception-reporting state (`ES_CLEARED` / `ES_DETECTED` / `ES_CAUGHT`). -/
inductive ExceptionState
  | es_cleared
  | es_detected
  | es_caught
deriving DecidableEq, Repr

/-- The exception state snapshot taken by the `JvmtiEventMark` constructor
(jvmtiExport.cpp:148-161): `_saved_exception_state` starts as `ES_CLEARED`
and is overwritten with the value held by the thread state when a JVMTI thread state is
present.  The optional state of the thread is modelled by its exception-state
component alone. -/
def event_mark_saved (t : Option ExceptionState) : ExceptionState :=
  match t with
  | some es => es
  | none => .es_cleared

/-- The `JvmtiEventMark` destructor (jvmtiExport.cpp:163-172): re-fetch the
JVMTI state of the thread and, when present, restore the saved exception state.
`JvmtiThreadState::restore_exception_state` is modelled from the spec:
the spec says the transition must snapshot and later restore the transient
exception-reporting state of the calling thread (its body lives in `jvmtiThreadState.hpp`, not under `src/`), so
restoring sets the state back to the snapshot. -/
def event_mark_restore (saved : ExceptionState) (t : Option ExceptionState) :
    Option ExceptionState :=
  match t with
  | some _ => some saved
  | none => none

/-- A whole event-mark scope around an agent callback: the constructor
snapshots, the callback transforms the (optional) exception state of the thread
arbitrarily, the destructor restores. -/
def with_event_mark (t : Option ExceptionState)
    (callback : Option ExceptionState → Option ExceptionState) :
    Option ExceptionState :=
  event_mark_restore (event_mark_saved t) (callback t)

/-- `JvmtiExport::post_exception_throw` (jvmtiExport.cpp:1998-2088), reduced
to its delivery decision: after the early returns for a missing thread state
and for hidden events, callbacks are posted only when
`state->is_exception_detected()` is false, i.e. only when the exception state
is not `ES_DETECTED`; `state->set_exception_detected()` runs before the
environment iteration; an environment receives the event when its enablement
bit is set, the exception is non-null, and its `Exception` callback is
non-null.  Returns the updated exception state and the invoked
environments in order. -/
def post_exception_throw (has_state hide_events : Bool) (st : ExceptionState)
    (envs : List JvmtiEnv) (has_exception : Bool) :
    ExceptionState × List JvmtiEnv :=
  if !has_state then (st, [])
  else if hide_events then (st, [])
  else if !(st == .es_detected) then
    (.es_detected,
     envs.filter (fun e =>
       e.enabled .exceptionThrow && has_exception && e.has_callback .exceptionThrow))
  else (st, [])

/-!
## Deferred posting: class unload and dynamic code generated
-/

/-- A deferred event record handed to the service thread.  Modelled from the
spec: `JvmtiDeferredEvent` (in `jvmtiImpl.*`, not under `src/`) is "an owned,
self-contained copy of the payload of an event"; the source notes
"JvmtiDeferredEvent copies the string" (jvmtiExport.cpp:1428), so the record
carries the payload by value. -/
inductive JvmtiDeferredEvent
  | class_unload_event (name : String)
  | dynamic_code_generated_event (name : String) (code_begin code_end : Nat)
deriving DecidableEq, Repr

/-- What one call records against the outside world: deferred records
enqueued to the service thread, and environments whose callback was invoked
synchronously on the calling thread. -/
structure PostOutcome where
  enqueued : List JvmtiDeferredEvent
  invoked : List JvmtiEnv

/-- `JvmtiExport::post_class_unload` (jvmtiExport.cpp:1420-1431): below the
primordial phase it does nothing; otherwise it enqueues a deferred
class-unload record carrying a copy of the class-name string and invokes no
callback on the triggering thread. -/
def post_class_unload (p : JvmtiPhase) (klass_name : String) : PostOutcome :=
  if p.num < JvmtiPhase.primordial.num then { enqueued := [], invoked := [] }
  else { enqueued := [JvmtiDeferredEvent.class_unload_event klass_name], invoked := [] }

/-- `JvmtiExport::post_class_unload_internal` (jvmtiExport.cpp:1434-1462):
runs on the service thread (asserted in the source); below the primordial
phase it does nothing; otherwise it invokes the `ClassUnload` extension
callback of every enabled environment not in the primordial phase whose
callback entry is non-null, in iteration order.  The `any environment
enabled` pre-check (line 1443) does not change the invoked set. -/
def post_class_unload_internal (p : JvmtiPhase) (envs : List JvmtiEnv) :
    List JvmtiEnv :=
  if p.num < JvmtiPhase.primordial.num then []
  else if envs.any (fun e => e.enabled .classUnload) then
    envs.filter (fun e =>
      !(e.phase == .primordial) && e.enabled .classUnload && e.has_callback .classUnload)
  else []

/-- `JvmtiExport::post_dynamic_code_generated_internal`
(jvmtiExport.cpp:2528-2557): the synchronous dispatch loop — every enabled
environment with a non-null `DynamicCodeGenerated` callback is invoked, in
iteration order. -/
def post_dynamic_code_generated_internal (envs : List JvmtiEnv) : List JvmtiEnv :=
  envs.filter (fun e =>
    e.enabled .dynamicCodeGenerated && e.has_callback .dynamicCodeGenerated)

/-- `JvmtiExport::post_dynamic_code_generated` (jvmtiExport.cpp:2559-2571):
in the primordial or start phase the event is dispatched synchronously via
`post_dynamic_code_generated_internal`; in any other phase a deferred record
is enqueued to the service thread instead. -/
def post_dynamic_code_generated (p : JvmtiPhase) (envs : List JvmtiEnv)
    (name : String) (code_begin code_end : Nat) : PostOutcome :=
  if p == .primordial || p == .start then
    { enqueued := [], invoked := post_dynamic_code_generated_internal envs }
  else
    { enqueued := [JvmtiDeferredEvent.dynamic_code_generated_event name code_begin code_end],
      invoked := [] }

/-!
## GetEnv-time environment creation
-/

/-- JNI return codes used by `get_jvmti_interface`. -/
def jni_ok : Int := 0

/-- `JNI_EDETACHED`. -/
def jni_edetached : Int := -2

/-- `JNI_EVERSION`. -/
def jni_eversion : Int := -3

/-- What `get_jvmti_interface` does to the `*penv` slot of the caller. -/
inductive PenvAction
  | untouched
  | set_null
  | set_env
deriving DecidableEq, Repr

/-- The observable outcome of `JvmtiExport::get_jvmti_interface`. -/
structure GetJvmtiResult where
  ret : Int
  penv : PenvAction
  env_created : Bool
deriving DecidableEq, Repr

/-- `JvmtiExport::decode_version_values` (jvmtiExport.cpp:621-626): extract
the major / minor / micro fields with the JVMTI version masks
(`0x0FFF0000 >> 16`, `0x0000FF00 >> 8`, `0x000000FF`). -/
def decode_version_values (version : Nat) : Nat × Nat × Nat :=
  ((version / 2 ^ 16) % 2 ^ 12, (version / 2 ^ 8) % 2 ^ 8, version % 2 ^ 8)

/-- The version acceptance test of `JvmtiExport::get_jvmti_interface`
(jvmtiExport.cpp:346-379): major 1 accepts minor 0/1/2, major 9 and 11 accept
minor 0, and from major 13 up to the major version of the VM the minor does not
matter; anything else is rejected with `JNI_EVERSION`. -/
def version_supported (vm_major major minor : Nat) : Bool :=
  match major with
  | 1 => minor == 0 || minor == 1 || minor == 2
  | 9 => minor == 0
  | 11 => minor == 0
  | m => 13 ≤ m && m ≤ vm_major

/-- `JvmtiExport::get_jvmti_interface` (jvmtiExport.cpp:338-418): reject
unsupported versions before touching `*penv`; in the live and onload phases
create an environment and store it through `*penv`; in every other phase set
`*penv` to null and return `JNI_EDETACHED`. -/
def get_jvmti_interface (p : JvmtiPhase) (vm_major version : Nat) :
    GetJvmtiResult :=
  let dv := decode_version_values version
  if !(version_supported vm_major dv.1 dv.2.1) then
    { ret := jni_eversion, penv := .untouched, env_created := false }
  else if p == .live then
    { ret := jni_ok, penv := .set_env, env_created := true }
  else if p == .onload then
    { ret := jni_ok, penv := .set_env, env_created := true }
  else
    { ret := jni_edetached, penv := .set_null, env_created := false }

/-!
## Location-gated events: single step and breakpoint

The per-(environment, thread) de-duplication state lives in
`JvmtiEnvThreadState` (in `jvmtiEnvThreadState.*`, not under `src/`).
Modelled from the spec: the state holds "current bytecode/location markers per
environment (to detect duplicate step/breakpoint events at the same
location)", and "an event at the same method+location is suppressed until the
location changes — tracked via the current-location marker".  So
`compare_and_set_current_location` leaves the posted flags alone when the
incoming (method, location) equals the marker, and otherwise updates the
marker and clears both posted flags, re-arming delivery.
-/

/-- The per-thread state of one environment for location-gated events: the
current-location marker, the two posted flags, the per-event enablement bits
(`ets->is_enabled(...)`), and whether the corresponding callback table entries
are non-null. -/
structure JvmtiEnvThreadState where
  eid : Nat
  current_loc : Option (Nat × Nat)
  breakpoint_posted : Bool
  single_stepping_posted : Bool
  step_enabled : Bool
  bp_enabled : Bool
  step_callback : Bool
  bp_callback : Bool
deriving DecidableEq, Repr

/-- Modelled from the spec:
`JvmtiEnvThreadState::compare_and_set_current_location` — if the posting
location equals the stored marker the posted flags survive; a different
location overwrites the marker and clears both posted flags. -/
def compare_and_set_current_location (ets : JvmtiEnvThreadState)
    (m l : Nat) : JvmtiEnvThreadState :=
  if ets.current_loc == some (m, l) then ets
  else { ets with
    current_loc := some (m, l)
    breakpoint_posted := false
    single_stepping_posted := false }

/-- The loop body of `JvmtiExport::post_single_step`
(jvmtiExport.cpp:1975-1995) for one environment: update the location marker,
then, when the single-stepping-posted flag is clear and the event is enabled,
invoke the callback (when non-null) and set the posted flag.  Returns the
updated state and whether a callback was delivered. -/
def post_single_step_ets (ets : JvmtiEnvThreadState) (m l : Nat) :
    JvmtiEnvThreadState × Bool :=
  let e1 := compare_and_set_current_location ets m l
  if !e1.single_stepping_posted && e1.step_enabled then
    ({ e1 with single_stepping_posted := true }, e1.step_callback)
  else (e1, false)

/-- The loop body of `JvmtiExport::post_raw_breakpoint`
(jvmtiExport.cpp:1216-1239) for one environment: same shape as the
single-step body, with the breakpoint flag, enablement bit and callback. -/
def post_raw_breakpoint_ets (ets : JvmtiEnvThreadState) (m l : Nat) :
    JvmtiEnvThreadState × Bool :=
  let e1 := compare_and_set_current_location ets m l
  if !e1.breakpoint_posted && e1.bp_enabled then
    ({ e1 with breakpoint_posted := true }, e1.bp_callback)
  else (e1, false)

/-- `JvmtiExport::post_single_step` over the whole per-thread
`JvmtiEnvThreadStateIterator` list: the state of each environment is processed
independently by the loop body; the second component records, position by
position, whether that environment received a callback. -/
def post_single_step (etss : List JvmtiEnvThreadState) (m l : Nat) :
    List JvmtiEnvThreadState × List Bool :=
  (etss.map (fun e => (post_single_step_ets e m l).1),
   etss.map (fun e => (post_single_step_ets e m l).2))

/-- `JvmtiExport::post_raw_breakpoint` over the per-thread env-state
list. -/
def post_raw_breakpoint (etss : List JvmtiEnvThreadState) (m l : Nat) :
    List JvmtiEnvThreadState × List Bool :=
  (etss.map (fun e => (post_raw_breakpoint_ets e m l).1),
   etss.map (fun e => (post_raw_breakpoint_ets e m l).2))

/-!
## Object-allocation event collectors

`JvmtiObjectAllocEventCollector` holds `_enable` and a growable `_allocated`
buffer (null until the first record).  The vm-object-alloc collector of the thread
slot together with the `_prev` chain of the installed collectors forms a
stack; we model the chain of installed collectors as a list whose head is the
slot occupant.  A collector whose `setup_jvmti_thread_state` returned without
installing (`_unset_jvmti_thread_state` stays false) is kept outside the
stack.
-/

/-- The collector-local fields of `JvmtiObjectAllocEventCollector`:
`_enable` and `_allocated` (an absent buffer models the null
`GrowableArray`), plus whether `setup_jvmti_thread_state` installed this
collector into the slot of the thread (`_unset_jvmti_thread_state`). -/
structure ObjectAllocCollector where
  enable : Bool
  allocated : Option (List Nat)
  installed : Bool
deriving DecidableEq, Repr

/-- `JvmtiObjectAllocEventCollector::record_allocation`
(jvmtiExport.cpp:3093-3099): allocate the buffer on first use and append the
object.  The source asserts `is_enabled()` on entry. -/
def record_allocation (c : ObjectAllocCollector) (obj : Nat) :
    ObjectAllocCollector :=
  { c with allocated := some ((c.allocated.getD []) ++ [obj]) }

/-- `JvmtiExport::record_vm_internal_object_allocation`
(jvmtiExport.cpp:2620-2641) against the vm-object-alloc collector of the thread
stack (head = slot occupant): the object is recorded only when a collector
occupies the slot and that collector is enabled. -/
def record_vm_internal_object_allocation (stack : List ObjectAllocCollector)
    (obj : Nat) : List ObjectAllocCollector :=
  match stack with
  | [] => []
  | c :: rest => if c.enable then record_allocation c obj :: rest else c :: rest

/-- The vm-object-alloc arm of
`JvmtiEventCollector::setup_jvmti_thread_state` (jvmtiExport.cpp:2978-3003)
combined with the `JvmtiVMObjectAllocEventCollector` constructor
(jvmtiExport.cpp:3130-3136): when posting is off the collector stays disabled
and uninstalled; when posting is on the collector is enabled, and it installs
itself in the slot (saving the previous occupant) unless the slot holds a
disabled collector — in that case it is left uninstalled. -/
def vm_object_alloc_collector_acquire (should_post : Bool)
    (slot : Option ObjectAllocCollector) : ObjectAllocCollector :=
  if should_post then
    match slot with
    | some prev =>
      if !prev.enable then { enable := true, allocated := none, installed := false }
      else { enable := true, allocated := none, installed := true }
    | none => { enable := true, allocated := none, installed := true }
  else { enable := false, allocated := none, installed := false }

/-- The sampled-object-alloc arm of
`JvmtiEventCollector::setup_jvmti_thread_state` (jvmtiExport.cpp:2991-3000):
a new sampled collector installs itself only when the slot is empty; any
previous occupant keeps the slot. -/
def sampled_object_alloc_setup_installs
    (slot : Option ObjectAllocCollector) : Bool :=
  slot.isNone

/-- `JvmtiObjectAllocEventCollector::generate_call_for_allocated`
(jvmtiExport.cpp:3079-3091): when the buffer exists, first disable the
collector, then post every buffered record in order through
`_post_callback`, then drop the buffer.  Returns the records posted (in
posting order) and the collector afterwards. -/
def generate_call_for_allocated (c : ObjectAllocCollector) :
    List Nat × ObjectAllocCollector :=
  match c.allocated with
  | some l => (l, { c with enable := false, allocated := none })
  | none => ([], c)

/-- The vm-object-alloc arm of
`JvmtiEventCollector::unset_jvmti_thread_state` (jvmtiExport.cpp:3008-3039)
for a collector installed at the head of the stack: restore the saved
previous occupant, i.e. pop. -/
def unset_vm_object_alloc (stack : List ObjectAllocCollector) :
    List ObjectAllocCollector :=
  match stack with
  | [] => []
  | _ :: rest => rest

/-- The `JvmtiVMObjectAllocEventCollector` destructor
(jvmtiExport.cpp:3138-3143) for the collector at the head of the stack
(the installed case): flush when enabled, then restore the previous slot
occupant.  Returns the records posted, in order, and the remaining stack. -/
def vm_object_alloc_collector_release (stack : List ObjectAllocCollector) :
    List Nat × List ObjectAllocCollector :=
  match stack with
  | [] => ([], [])
  | c :: rest =>
    ((if c.enable then (generate_call_for_allocated c).1 else []), rest)

/-- The `JvmtiVMObjectAllocEventCollector` destructor for a collector that
was never installed (`_unset_jvmti_thread_state` false): the flush still runs
when the collector is enabled, but `unset_jvmti_thread_state` leaves the
per-thread slot alone.  Returns the records posted and the unchanged stack. -/
def vm_object_alloc_collector_release_detached (c : ObjectAllocCollector)
    (stack : List ObjectAllocCollector) :
    List Nat × List ObjectAllocCollector :=
  ((if c.enable then (generate_call_for_allocated c).1 else []), stack)

/-- The flush loop of `generate_call_for_allocated` with re-entrant
allocations made visible: posting record `obj` lets the agent callback
allocate the objects `reentrant obj`, each of which goes through
`record_vm_internal_object_allocation` against the current stack of the thread
(whose head is still the flushing collector — `unset_jvmti_thread_state` runs
only after the flush). -/
def flush_loop (reentrant : Nat → List Nat) (objs : List Nat)
    (stack : List ObjectAllocCollector) : List ObjectAllocCollector :=
  objs.foldl (fun st obj =>
    (reentrant obj).foldl record_vm_internal_object_allocation st) stack

/-- `generate_call_for_allocated` executed against the stack of the thread with
re-entrant allocations: when the head collector has a buffer, it is disabled
first, every buffered record is posted in order (each callback possibly
allocating), and the buffer is dropped afterwards.  Returns the records
posted and the stack afterwards. -/
def generate_call_for_allocated_reentrant (reentrant : Nat → List Nat)
    (stack : List ObjectAllocCollector) :
    List Nat × List ObjectAllocCollector :=
  match stack with
  | [] => ([], [])
  | c :: rest =>
    match c.allocated with
    | some l =>
      let st1 := flush_loop reentrant l ({ c with enable := false } :: rest)
      (l, match st1 with
          | [] => []
          | c1 :: r1 => { c1 with allocated := none } :: r1)
    | none => ([], c :: rest)

/-!
## Concrete inputs used by counterexamples and witnesses
-/

/-- A demonstration environment for class-file-load-hook dispatch: identity
`i`, live phase, retransform capability `retrans`, all events enabled with
non-null callbacks. -/
def cflh_env (i : Nat) (retrans : Bool) : JvmtiEnv :=
  { eid := i
    phase := .live
    is_retransformable := retrans
    early_class_hook_env := false
    enabled := fun _ => true
    has_callback := fun _ => true }

/-- An environment still in the primordial phase, not flagged as an early
class-hook environment. -/
def primordial_env : JvmtiEnv :=
  { eid := 5
    phase := .primordial
    is_retransformable := false
    early_class_hook_env := false
    enabled := fun _ => true
    has_callback := fun _ => true }

/-!
## Claims
-/

/-- C1, counterexample.  The claim says environments are visited and invoked
in exactly registration order for all event kinds, including the
class-file-load-hook event.  With environment 0 registered first and
retransform-capable, and environment 1 registered second and not
retransform-capable, both enabled for the hook, `post_all_envs` invokes
environment 1 before environment 0, so the invocation order is not a
subsequence of the registration order. -/
theorem claim_C1_registration_order_counterexample :
    (post_all_envs_invoked [cflh_env 0 true, cflh_env 1 false] .load).map JvmtiEnv.eid
      = [1, 0] ∧
    ¬ ((post_all_envs_invoked [cflh_env 0 true, cflh_env 1 false] .load).map
        JvmtiEnv.eid).Sublist
      (([cflh_env 0 true, cflh_env 1 false]).map JvmtiEnv.eid) := by
  constructor
  · rfl
  · intro h
    rw [show (post_all_envs_invoked [cflh_env 0 true, cflh_env 1 false] .load).map
        JvmtiEnv.eid = [1, 0] from rfl,
      show ([cflh_env 0 true, cflh_env 1 false]).map JvmtiEnv.eid = [0, 1] from rfl] at h
    exact absurd h (by decide)

/-- C1, amended.  Single-pass dispatch loops (here `post_vm_object_alloc`)
invoke environments in a subsequence of registration order; the
class-file-load-hook poster instead invokes the enabled non-retransformable
environments first and the enabled retransformable ones second, each group in
registration order — its invocation order is a subsequence of the
concatenation of the non-retransformable environments (in registration order)
and the retransformable environments (in registration order). -/
theorem claim_C1_registration_order_amended (envs : List JvmtiEnv)
    (lk : ClassLoadKind) :
    (post_vm_object_alloc_invoked envs).Sublist envs ∧
    (post_all_envs_invoked envs lk).Sublist
      (envs.filter (fun e => !e.is_retransformable) ++
       envs.filter (fun e => e.is_retransformable)) := by
  constructor
  · exact List.filter_sublist envs
  · unfold post_all_envs_invoked post_all_envs_visited
    rw [List.filter_append]
    apply List.Sublist.append
    · split
      · exact ((List.filter_sublist _).trans
          (List.monotone_filter_right envs
            (fun a ha => by
              rcases Bool.and_eq_true_iff.mp ha with ⟨h1, _⟩
              exact h1)))
      · simp
    · exact ((List.filter_sublist _).trans
        (List.monotone_filter_right envs
          (fun a ha => by
            rcases Bool.and_eq_true_iff.mp ha with ⟨h1, _⟩
            exact h1)))

/-- After one single-step post at (m, l), the marker points at (m, l), the
enablement and callback fields are unchanged, and the posted flag is set
whenever the event is enabled. -/
theorem post_single_step_ets_state (ets : JvmtiEnvThreadState) (m l : Nat) :
    (post_single_step_ets ets m l).1.current_loc = some (m, l) ∧
    (post_single_step_ets ets m l).1.step_enabled = ets.step_enabled ∧
    (post_single_step_ets ets m l).1.step_callback = ets.step_callback ∧
    ((post_single_step_ets ets m l).1.single_stepping_posted
      || !(post_single_step_ets ets m l).1.step_enabled) = true := by
  unfold post_single_step_ets compare_and_set_current_location
  by_cases hloc : ets.current_loc = some (m, l) <;>
    simp [hloc] <;>
    by_cases hp : ets.single_stepping_posted <;>
    by_cases he : ets.step_enabled <;>
    simp [hp, he, hloc]

/-- A single-step post at the location already held by the marker, on a state
where the posted flag is set or the event disabled, delivers nothing and
leaves the state unchanged. -/
theorem post_single_step_ets_stable (s : JvmtiEnvThreadState) (m l : Nat)
    (hloc : s.current_loc = some (m, l))
    (hflag : (s.single_stepping_posted || !s.step_enabled) = true) :
    post_single_step_ets s m l = (s, false) := by
  unfold post_single_step_ets compare_and_set_current_location
  rcases Bool.or_eq_true_iff.mp hflag with h | h
  · simp [hloc, h]
  · simp [hloc, Bool.not_eq_true' .. |>.mp h]

/-- Breakpoint analogue of `post_single_step_ets_state`. -/
theorem post_raw_breakpoint_ets_state (ets : JvmtiEnvThreadState) (m l : Nat) :
    (post_raw_breakpoint_ets ets m l).1.current_loc = some (m, l) ∧
    (post_raw_breakpoint_ets ets m l).1.bp_enabled = ets.bp_enabled ∧
    (post_raw_breakpoint_ets ets m l).1.bp_callback = ets.bp_callback ∧
    ((post_raw_breakpoint_ets ets m l).1.breakpoint_posted
      || !(post_raw_breakpoint_ets ets m l).1.bp_enabled) = true := by
  unfold post_raw_breakpoint_ets compare_and_set_current_location
  by_cases hloc : ets.current_loc = some (m, l) <;>
    simp [hloc] <;>
    by_cases hp : ets.breakpoint_posted <;>
    by_cases he : ets.bp_enabled <;>
    simp [hp, he, hloc]

/-- Breakpoint analogue of `post_single_step_ets_stable`. -/
theorem post_raw_breakpoint_ets_stable (s : JvmtiEnvThreadState) (m l : Nat)
    (hloc : s.current_loc = some (m, l))
    (hflag : (s.breakpoint_posted || !s.bp_enabled) = true) :
    post_raw_breakpoint_ets s m l = (s, false) := by
  unfold post_raw_breakpoint_ets compare_and_set_current_location
  rcases Bool.or_eq_true_iff.mp hflag with h | h
  · simp [hloc, h]
  · simp [hloc, Bool.not_eq_true' .. |>.mp h]

/-- A location change clears the posted flag, so a post right after one at a
different location delivers exactly when the event is enabled with a non-null
callback. -/
theorem post_single_step_ets_rearm (s : JvmtiEnvThreadState) (m2 l2 : Nat)
    (hloc : s.current_loc ≠ some (m2, l2)) :
    (post_single_step_ets s m2 l2).2 = (s.step_enabled && s.step_callback) := by
  unfold post_single_step_ets compare_and_set_current_location
  by_cases he : s.step_enabled <;> simp [hloc, he]

/-- Breakpoint analogue of `post_single_step_ets_rearm`. -/
theorem post_raw_breakpoint_ets_rearm (s : JvmtiEnvThreadState) (m2 l2 : Nat)
    (hloc : s.current_loc ≠ some (m2, l2)) :
    (post_raw_breakpoint_ets s m2 l2).2 = (s.bp_enabled && s.bp_callback) := by
  unfold post_raw_breakpoint_ets compare_and_set_current_location
  by_cases he : s.bp_enabled <;> simp [hloc, he]

/-- C2.  For every environment state and every (method, location) pair,
posting a single-step or breakpoint event twice at the same location delivers
no callback on the second post and leaves the state fixed, so repeated posts
at one location deliver at most one callback to the environment; posting at a
different location afterwards re-arms delivery (the follow-up post delivers
exactly when the event is enabled with a non-null callback); lifted to the
whole per-thread environment list, a repeated post at the same location
delivers to no environment at all. -/
theorem claim_C2_location_dedup (ets : JvmtiEnvThreadState)
    (etss : List JvmtiEnvThreadState) (m l m2 l2 : Nat)
    (hne : (m2, l2) ≠ (m, l)) :
    (post_single_step_ets (post_single_step_ets ets m l).1 m l).2 = false ∧
    (post_single_step_ets (post_single_step_ets ets m l).1 m l).1
      = (post_single_step_ets ets m l).1 ∧
    (post_single_step_ets (post_single_step_ets ets m l).1 m2 l2).2
      = (ets.step_enabled && ets.step_callback) ∧
    (post_raw_breakpoint_ets (post_raw_breakpoint_ets ets m l).1 m l).2 = false ∧
    (post_raw_breakpoint_ets (post_raw_breakpoint_ets ets m l).1 m l).1
      = (post_raw_breakpoint_ets ets m l).1 ∧
    (post_raw_breakpoint_ets (post_raw_breakpoint_ets ets m l).1 m2 l2).2
      = (ets.bp_enabled && ets.bp_callback) ∧
    (∀ b ∈ (post_single_step (post_single_step etss m l).1 m l).2, b = false) ∧
    (∀ b ∈ (post_raw_breakpoint (post_raw_breakpoint etss m l).1 m l).2, b = false) := by
  obtain ⟨hl, he, hc, hf⟩ := post_single_step_ets_state ets m l
  obtain ⟨hl2, he2, hc2, hf2⟩ := post_raw_breakpoint_ets_state ets m l
  have hss := post_single_step_ets_stable _ m l hl hf
  have hbp := post_raw_breakpoint_ets_stable _ m l hl2 hf2
  have hnl : (post_single_step_ets ets m l).1.current_loc ≠ some (m2, l2) := by
    rw [hl]
    exact fun h => hne (Option.some.inj h).symm
  have hnl2 : (post_raw_breakpoint_ets ets m l).1.current_loc ≠ some (m2, l2) := by
    rw [hl2]
    exact fun h => hne (Option.some.inj h).symm
  refine ⟨by rw [hss], by rw [hss], ?_, by rw [hbp], by rw [hbp], ?_, ?_, ?_⟩
  · rw [post_single_step_ets_rearm _ m2 l2 hnl, he, hc]
  · rw [post_raw_breakpoint_ets_rearm _ m2 l2 hnl2, he2, hc2]
  · intro b hb
    unfold post_single_step at hb
    simp only [List.map_map, List.mem_map, Function.comp] at hb
    obtain ⟨e, _, hbe⟩ := hb
    obtain ⟨hl3, _, _, hf3⟩ := post_single_step_ets_state e m l
    rw [post_single_step_ets_stable _ m l hl3 hf3] at hbe
    exact hbe.symm
  · intro b hb
    unfold post_raw_breakpoint at hb
    simp only [List.map_map, List.mem_map, Function.comp] at hb
    obtain ⟨e, _, hbe⟩ := hb
    obtain ⟨hl3, _, _, hf3⟩ := post_raw_breakpoint_ets_state e m l
    rw [post_raw_breakpoint_ets_stable _ m l hl3 hf3] at hbe
    exact hbe.symm

/-- A fully enabled environment state with no location marker yet. -/
def demo_ets : JvmtiEnvThreadState :=
  { eid := 0
    current_loc := none
    breakpoint_posted := false
    single_stepping_posted := false
    step_enabled := true
    bp_enabled := true
    step_callback := true
    bp_callback := true }

/-- C2, witness: the de-duplication theorem applied at a concrete state and
concrete locations. -/
theorem claim_C2_location_dedup_witness :
    ((0, 1) : Nat × Nat) ≠ (0, 0) ∧
    (post_single_step_ets (post_single_step_ets demo_ets 0 0).1 0 0).2 = false ∧
    (post_single_step_ets (post_single_step_ets demo_ets 0 0).1 0 1).2 = true := by
  refine ⟨by decide, ?_, ?_⟩
  · exact (claim_C2_location_dedup demo_ets [] 0 0 0 1 (by decide)).1
  · have h := (claim_C2_location_dedup demo_ets [] 0 0 0 1 (by decide)).2.2.1
    simpa [demo_ets] using h

/-- C3.  The phase gate on posting: `post_class_load` invokes no callback
while the process-wide phase is below the primordial minimum; no environment
still in the primordial phase is ever invoked by `post_class_load`; and the
class-file-load-hook poster invokes no callback of a primordial-phase
environment that is not flagged as an early class-hook environment. -/
theorem claim_C3_phase_gate (p : JvmtiPhase) (has_state hide_events : Bool)
    (envs : List JvmtiEnv) :
    (p.num < JvmtiPhase.primordial.num →
      post_class_load_invoked p has_state hide_events envs = []) ∧
    (∀ e ∈ post_class_load_invoked p has_state hide_events envs,
      e.phase ≠ .primordial) ∧
    (∀ env : JvmtiEnv, env.phase = .primordial → env.early_class_hook_env = false →
      post_to_env_invokes env = false) := by
  refine ⟨fun h => by simp [post_class_load_invoked, h], ?_, ?_⟩
  · intro e hmem
    unfold post_class_load_invoked at hmem
    split at hmem
    · simp at hmem
    · split at hmem
      · simp at hmem
      · split at hmem
        · simp at hmem
        · have := List.of_mem_filter hmem
          rcases Bool.and_eq_true_iff.mp this with ⟨h1, _⟩
          rcases Bool.and_eq_true_iff.mp h1 with ⟨_, h3⟩
          intro hphase
          rw [hphase] at h3
          simp at h3
  · intro env h1 h2
    simp [post_to_env_invokes, h1, h2]

/-- C3, witness: the phase-gate theorem applied in the onload phase (the only
phase numerically below primordial) and to a concrete primordial
environment. -/
theorem claim_C3_phase_gate_witness :
    post_class_load_invoked .onload true false [primordial_env] = [] ∧
    post_to_env_invokes primordial_env = false := by
  refine ⟨?_, ?_⟩
  · exact (claim_C3_phase_gate .onload true false [primordial_env]).1 (by decide)
  · exact (claim_C3_phase_gate .onload true false [primordial_env]).2.2
      primordial_env rfl rfl

/-- An environment in the live phase with the dynamic-code-generated event
enabled and a non-null callback. -/
def dyncode_env : JvmtiEnv :=
  { eid := 3
    phase := .live
    is_retransformable := false
    early_class_hook_env := false
    enabled := fun _ => true
    has_callback := fun _ => true }

/-- C4, counterexample.  The claim says `post_dynamic_code_generated` hands
the event to the deferred queue rather than dispatching it synchronously, for
every call with phase at least primordial.  In the start phase (and likewise
the primordial phase) the function enqueues nothing and dispatches the event
synchronously, invoking the enabled environment on the calling thread. -/
theorem claim_C4_deferred_counterexample :
    (post_dynamic_code_generated .start [dyncode_env] "stub" 0 16).enqueued = [] ∧
    ((post_dynamic_code_generated .start [dyncode_env] "stub" 0 16).invoked).map
      JvmtiEnv.eid = [3] := by
  exact ⟨rfl, rfl⟩

/-- C4, amended.  For every call with phase at least primordial,
`post_class_unload` invokes no callback on the triggering thread and enqueues
exactly one deferred record carrying the class-name copy; class-unload
callbacks are produced only by `post_class_unload_internal` (service thread),
which skips primordial-phase and disabled environments; and
`post_dynamic_code_generated` hands the event to the deferred queue exactly
when the phase is neither primordial nor start, dispatching synchronously
(with an empty queue contribution) in those two phases. -/
theorem claim_C4_deferred_amended (p : JvmtiPhase) (klass_name nm : String)
    (cb ce : Nat) (envs : List JvmtiEnv)
    (hp : ¬ p.num < JvmtiPhase.primordial.num) :
    post_class_unload p klass_name
      = { enqueued := [JvmtiDeferredEvent.class_unload_event klass_name],
          invoked := [] } ∧
    (∀ e ∈ post_class_unload_internal p envs,
      e.phase ≠ .primordial ∧ e.enabled .classUnload = true) ∧
    (p ≠ .primordial → p ≠ .start →
      post_dynamic_code_generated p envs nm cb ce
        = { enqueued := [JvmtiDeferredEvent.dynamic_code_generated_event nm cb ce],
            invoked := [] }) ∧
    (p = .primordial ∨ p = .start →
      (post_dynamic_code_generated p envs nm cb ce).enqueued = []) := by
  refine ⟨by simp [post_class_unload, hp], ?_, ?_, ?_⟩
  · intro e hmem
    unfold post_class_unload_internal at hmem
    split at hmem
    · simp at hmem
    · split at hmem
      · have := List.of_mem_filter hmem
        rcases Bool.and_eq_true_iff.mp this with ⟨h1, _⟩
        rcases Bool.and_eq_true_iff.mp h1 with ⟨h2, h3⟩
        refine ⟨fun hph => by rw [hph] at h2; simp at h2, h3⟩
      · simp at hmem
  · intro h1 h2
    simp [post_dynamic_code_generated, h1, h2]
  · rintro (h | h) <;> simp [post_dynamic_code_generated, h]

/-- C4, witness: the deferral theorem applied in the live phase and, for the
synchronous branch, in the start phase. -/
theorem claim_C4_deferred_amended_witness :
    post_class_unload .live "LFoo"
      = { enqueued := [JvmtiDeferredEvent.class_unload_event "LFoo"],
          invoked := [] } ∧
    post_dynamic_code_generated .live [] "stub" 0 16
      = { enqueued := [JvmtiDeferredEvent.dynamic_code_generated_event "stub" 0 16],
          invoked := [] } := by
  refine ⟨?_, ?_⟩
  · exact (claim_C4_deferred_amended .live "LFoo" "stub" 0 16 [] (by decide)).1
  · exact (claim_C4_deferred_amended .live "LFoo" "stub" 0 16 [] (by decide)).2.2.1
      (by decide) (by decide)

/-- C5, counterexample.  The claim says every `get_jvmti_interface` call in a
phase that is neither onload nor live sets `*penv` to null and returns an
error code.  A call in the dead phase with an unsupported version (major 2,
encoded as `0x20000`) returns `JNI_EVERSION` before ever touching `*penv`:
the slot is left untouched, not set to null. -/
theorem claim_C5_getenv_after_dead_counterexample :
    get_jvmti_interface .dead 26 131072
      = { ret := jni_eversion, penv := .untouched, env_created := false } ∧
    PenvAction.untouched ≠ PenvAction.set_null := by
  exact ⟨rfl, by decide⟩

/-- C5, amended.  For every call whose version number passes the version
check, in a phase that is neither onload nor live (which includes dead), no
environment is created, `*penv` is set to null, and the error code
`JNI_EDETACHED` is returned; calls with an unsupported version return
`JNI_EVERSION` without touching `*penv`. -/
theorem claim_C5_getenv_after_dead_amended (p : JvmtiPhase) (vm_major version : Nat)
    (hv : version_supported vm_major (decode_version_values version).1
      (decode_version_values version).2.1 = true)
    (h1 : p ≠ .live) (h2 : p ≠ .onload) :
    get_jvmti_interface p vm_major version
      = { ret := jni_edetached, penv := .set_null, env_created := false } := by
  unfold get_jvmti_interface
  simp [hv, h1, h2]

/-- C5, witness: the amended theorem applied in the dead phase with the
supported version 21.0.0 (encoded as `21 * 2 ^ 16`). -/
theorem claim_C5_getenv_after_dead_amended_witness :
    version_supported 26 (decode_version_values (21 * 2 ^ 16)).1
      (decode_version_values (21 * 2 ^ 16)).2.1 = true ∧
    get_jvmti_interface .dead 26 (21 * 2 ^ 16)
      = { ret := jni_edetached, penv := .set_null, env_created := false } := by
  refine ⟨by decide, ?_⟩
  exact claim_C5_getenv_after_dead_amended .dead 26 (21 * 2 ^ 16) (by decide)
    (by decide) (by decide)

/-- C6.  If the posting thread has a JVMTI thread state when the event mark
is constructed, then whatever the agent callback does to the exception state
in between (as long as the thread still has a state afterwards, which holds
because states are destroyed only at thread death), the state after the mark
is destroyed equals the value at construction. -/
theorem claim_C6_event_mark_restores (t : Option ExceptionState)
    (es : ExceptionState)
    (callback : Option ExceptionState → Option ExceptionState)
    (h : t = some es) (hcb : (callback t).isSome = true) :
    with_event_mark t callback = some es := by
  subst h
  unfold with_event_mark event_mark_saved event_mark_restore
  cases hc : callback (some es) with
  | none => rw [hc] at hcb; simp at hcb
  | some x => rfl

/-- C6, witness: a callback that overwrites the exception state with
`ES_CAUGHT`; the mark still restores the original `ES_DETECTED`. -/
theorem claim_C6_event_mark_restores_witness :
    (some ExceptionState.es_detected = some ExceptionState.es_detected) ∧
    ((fun _ : Option ExceptionState => some ExceptionState.es_caught)
      (some ExceptionState.es_detected)).isSome = true ∧
    with_event_mark (some .es_detected)
      (fun _ => some ExceptionState.es_caught) = some .es_detected := by
  refine ⟨rfl, by decide, ?_⟩
  exact claim_C6_event_mark_restores (some .es_detected) .es_detected
    (fun _ => some .es_caught) rfl (by decide)

/-- An active-accumulating collector occupying the slot: enabled, installed,
with an (empty) buffer already allocated. -/
def outer_active : ObjectAllocCollector :=
  { enable := true, allocated := some [], installed := true }

/-- C7, counterexample.  The claim says acquiring a collector for a kind
while another collector of that kind is active-accumulating on the thread
yields an active-suppressed collector that buffers nothing.  For the
vm-object-alloc kind, acquiring over an enabled occupant installs the new
collector enabled; a subsequent allocation is buffered by the new (inner)
collector — it is the active accumulator, not suppressed. -/
theorem claim_C7_nesting_counterexample :
    (vm_object_alloc_collector_acquire true (some outer_active)).enable = true ∧
    (vm_object_alloc_collector_acquire true (some outer_active)).installed = true ∧
    record_vm_internal_object_allocation
      [vm_object_alloc_collector_acquire true (some outer_active), outer_active] 7
      = [{ enable := true, allocated := some [7], installed := true }, outer_active] := by
  exact ⟨rfl, rfl, by decide⟩

/-- C7, amended.  Nesting behaviour per collector kind: a sampled-object-alloc
collector installs itself only into an empty slot; a vm-object-alloc
collector acquired while the occupant is disabled (i.e. mid-flush) stays
uninstalled and, having no buffer, flushes nothing and leaves the slot alone
at release; a vm-object-alloc collector acquired while the occupant is
active-accumulating installs itself enabled as the new accumulator; releasing
an installed inner collector restores the saved outer occupant (its buffer
intact); and releasing the outer, enabled with buffer `outer_buf`, flushes
exactly `outer_buf`. -/
theorem claim_C7_nesting_amended (prev : ObjectAllocCollector)
    (outer_buf : List Nat) (rest : List ObjectAllocCollector) :
    (∀ slot : Option ObjectAllocCollector, slot.isSome = true →
      sampled_object_alloc_setup_installs slot = false) ∧
    (prev.enable = false →
      vm_object_alloc_collector_acquire true (some prev)
        = { enable := true, allocated := none, installed := false }) ∧
    (prev.enable = true →
      vm_object_alloc_collector_acquire true (some prev)
        = { enable := true, allocated := none, installed := true }) ∧
    (∀ inner : ObjectAllocCollector,
      (vm_object_alloc_collector_release (inner :: prev :: rest)).2 = prev :: rest) ∧
    (prev.enable = true → prev.allocated = some outer_buf →
      (vm_object_alloc_collector_release (prev :: rest)).1 = outer_buf) ∧
    (∀ c : ObjectAllocCollector, c.allocated = none →
      vm_object_alloc_collector_release_detached c rest = ([], rest)) := by
  refine ⟨?_, ?_, ?_, ?_, ?_, ?_⟩
  · intro slot hs
    cases slot with
    | none => simp at hs
    | some c => rfl
  · intro h
    simp [vm_object_alloc_collector_acquire, h]
  · intro h
    simp [vm_object_alloc_collector_acquire, h]
  · intro inner
    rfl
  · intro h1 h2
    simp [vm_object_alloc_collector_release, generate_call_for_allocated, h1, h2]
  · intro c hc
    unfold vm_object_alloc_collector_release_detached generate_call_for_allocated
    rw [hc]
    cases he : c.enable <;> simp [he]

/-- C7, witness: the nesting theorem applied to a disabled occupant, an
enabled occupant with buffer `[4, 5]`, and an empty remaining stack. -/
theorem claim_C7_nesting_amended_witness :
    vm_object_alloc_collector_acquire true
      (some { enable := false, allocated := none, installed := true })
      = { enable := true, allocated := none, installed := false } ∧
    (vm_object_alloc_collector_release
      [{ enable := true, allocated := some [4, 5], installed := true }]).1 = [4, 5] := by
  refine ⟨?_, ?_⟩
  · exact (claim_C7_nesting_amended
      { enable := false, allocated := none, installed := true } [4, 5] []).2.1 rfl
  · exact (claim_C7_nesting_amended
      { enable := true, allocated := some [4, 5], installed := true } [4, 5] []).2.2.2.2.1
      rfl rfl

/-- Folding `record_allocation` over a record sequence appends the records,
in order, to the existing buffer. -/
theorem foldl_record_allocation (objs : List Nat) (b : List Nat) (en inst : Bool) :
    (objs.foldl record_allocation
      { enable := en, allocated := some b, installed := inst }).allocated
      = some (b ++ objs) := by
  induction objs generalizing b with
  | nil => simp
  | cons o rest ih =>
    have : record_allocation
        { enable := en, allocated := some b, installed := inst } o
        = { enable := en, allocated := some (b ++ [o]), installed := inst } := by
      simp [record_allocation]
    rw [List.foldl_cons, this, ih]
    simp

/-- C8.  On scope exit of the vm-object-alloc collector at the head of the
slot stack: an enabled collector with buffer `l` posts exactly `l`, in append
order, and restores the previous occupant; a disabled collector posts
nothing; a collector with no buffer posts nothing; a detached (suppressed)
collector with no buffer posts nothing and leaves the slot stack alone.  The
records accumulate in append order (`foldl record_allocation` ends with
`b ++ objs`), so the flush emits them in the order they were appended. -/
theorem claim_C8_flush_on_exit (c : ObjectAllocCollector)
    (rest : List ObjectAllocCollector) (l objs b : List Nat) :
    (c.enable = true → c.allocated = some l →
      vm_object_alloc_collector_release (c :: rest) = (l, rest)) ∧
    (c.enable = false →
      vm_object_alloc_collector_release (c :: rest) = ([], rest)) ∧
    (c.allocated = none →
      (vm_object_alloc_collector_release (c :: rest)).1 = []) ∧
    (c.allocated = none →
      vm_object_alloc_collector_release_detached c rest = ([], rest)) ∧
    ((objs.foldl record_allocation
      { enable := true, allocated := some b, installed := true }).allocated
      = some (b ++ objs)) := by
  refine ⟨?_, ?_, ?_, ?_, foldl_record_allocation objs b true true⟩
  · intro h1 h2
    simp [vm_object_alloc_collector_release, generate_call_for_allocated, h1, h2]
  · intro h
    simp [vm_object_alloc_collector_release, h]
  · intro h
    cases he : c.enable <;>
      simp [vm_object_alloc_collector_release, generate_call_for_allocated, h, he]
  · intro h
    cases he : c.enable <;>
      simp [vm_object_alloc_collector_release_detached, generate_call_for_allocated, h, he]

/-- C8, witness: flushing an enabled installed collector holding `[8, 9]`
posts `[8, 9]` and restores the outer occupant. -/
theorem claim_C8_flush_on_exit_witness :
    vm_object_alloc_collector_release
      [{ enable := true, allocated := some [8, 9], installed := true }, outer_active]
      = ([8, 9], [outer_active]) := by
  exact (claim_C8_flush_on_exit
    { enable := true, allocated := some [8, 9], installed := true }
    [outer_active] [8, 9] [] []).1 rfl rfl

/-- C9.  Exception-throw de-duplication: with the exception state already
`ES_DETECTED`, a post delivers no callbacks; a post that runs past the early
returns always leaves the state `ES_DETECTED` (it sets the flag before the
environment iteration); hence a second post right after a first, while the
exception is in flight, delivers no callbacks; and every delivered
environment had the event enabled. -/
theorem claim_C9_exception_throw_once (st : ExceptionState)
    (has_state hide_events : Bool) (envs envs2 : List JvmtiEnv)
    (he he2 : Bool) :
    (st = .es_detected →
      (post_exception_throw has_state hide_events st envs he).2 = []) ∧
    ((post_exception_throw true false st envs he).1 = .es_detected) ∧
    ((post_exception_throw true false
        (post_exception_throw true false st envs he).1 envs2 he2).2 = []) ∧
    (∀ e ∈ (post_exception_throw has_state hide_events st envs he).2,
      e.enabled .exceptionThrow = true) := by
  have hset : (post_exception_throw true false st envs he).1 = .es_detected := by
    unfold post_exception_throw
    by_cases h : st = .es_detected <;> simp [h]
  have hdel : ∀ (hs hd : Bool) (es : List JvmtiEnv) (hx : Bool),
      (post_exception_throw hs hd .es_detected es hx).2 = [] := by
    intro hs hd es hx
    unfold post_exception_throw
    cases hs <;> cases hd <;> simp
  refine ⟨fun h => by rw [h]; exact hdel .., hset, by rw [hset]; exact hdel .., ?_⟩
  · intro e hmem
    unfold post_exception_throw at hmem
    split at hmem
    · simp at hmem
    · split at hmem
      · simp at hmem
      · split at hmem
        · have := List.of_mem_filter hmem
          rcases Bool.and_eq_true_iff.mp this with ⟨h1, _⟩
          rcases Bool.and_eq_true_iff.mp h1 with ⟨h2, _⟩
          exact h2
        · simp at hmem

/-- C9, witness: the de-duplication theorem applied at a cleared exception
state: posting sets the detected flag, and a repeated post delivers
nothing. -/
theorem claim_C9_exception_throw_once_witness :
    (post_exception_throw true false .es_cleared [] true).1 = .es_detected ∧
    (post_exception_throw true false
      (post_exception_throw true false .es_cleared [] true).1 [] true).2 = [] := by
  refine ⟨?_, ?_⟩
  · exact (claim_C9_exception_throw_once .es_cleared true false [] [] true true).2.1
  · exact (claim_C9_exception_throw_once .es_cleared true false [] [] true true).2.2.1

/-- Recording against a stack whose head collector is disabled changes
nothing. -/
theorem record_disabled_head (c0 : ObjectAllocCollector)
    (rest : List ObjectAllocCollector) (objs : List Nat)
    (hd : c0.enable = false) :
    objs.foldl record_vm_internal_object_allocation (c0 :: rest) = c0 :: rest := by
  induction objs with
  | nil => rfl
  | cons o os ih =>
    rw [List.foldl_cons,
      show record_vm_internal_object_allocation (c0 :: rest) o = c0 :: rest by
        simp [record_vm_internal_object_allocation, hd]]
    exact ih

/-- The flush loop never changes a stack whose head collector is
disabled, whatever the callbacks allocate. -/
theorem flush_loop_disabled_head (reentrant : Nat → List Nat) (objs : List Nat)
    (c0 : ObjectAllocCollector) (rest : List ObjectAllocCollector)
    (hd : c0.enable = false) :
    flush_loop reentrant objs (c0 :: rest) = c0 :: rest := by
  unfold flush_loop
  induction objs with
  | nil => rfl
  | cons o os ih =>
    rw [List.foldl_cons, record_disabled_head c0 rest (reentrant o) hd]
    exact ih

/-- C10.  `generate_call_for_allocated` disables the collector before posting
any buffered record, so for every pattern of re-entrant allocations performed
inside the flushed callbacks, the flush posts exactly the records present
when the scope exited, nothing is appended to the flushing collector, and the
buffer is dropped afterwards. -/
theorem claim_C10_flush_disables_first (reentrant : Nat → List Nat)
    (c : ObjectAllocCollector) (rest : List ObjectAllocCollector)
    (l : List Nat) (h : c.allocated = some l) :
    generate_call_for_allocated_reentrant reentrant (c :: rest)
      = (l, { c with enable := false, allocated := none } :: rest) := by
  obtain ⟨en, al, inst⟩ := c
  obtain rfl : al = some l := h
  rw [show generate_call_for_allocated_reentrant reentrant
      ({ enable := en, allocated := some l, installed := inst } :: rest)
      = (l, match flush_loop reentrant l
          ({ enable := false, allocated := some l, installed := inst } :: rest) with
        | [] => []
        | c1 :: r1 => { c1 with allocated := none } :: r1) from rfl]
  rw [flush_loop_disabled_head reentrant l
    { enable := false, allocated := some l, installed := inst } rest rfl]

/-- C10, witness: a flush of buffer `[1, 2]` whose callbacks each try to
allocate two further objects still posts exactly `[1, 2]` and ends with an
empty, disabled collector. -/
theorem claim_C10_flush_disables_first_witness :
    (({ enable := true, allocated := some [1, 2], installed := true } :
      ObjectAllocCollector).allocated = some [1, 2]) ∧
    generate_call_for_allocated_reentrant (fun o => [o + 10, o + 20])
      [{ enable := true, allocated := some [1, 2], installed := true }]
      = ([1, 2], [{ enable := false, allocated := none, installed := true }]) := by
  refine ⟨rfl, ?_⟩
  exact claim_C10_flush_disables_first (fun o => [o + 10, o + 20])
    { enable := true, allocated := some [1, 2], installed := true } [] [1, 2] rfl

end JvmtiModel
